import Mathlib

/-!
Shallow embedding of the retrieval-augmented question-answering service
(`main.py` and `main_ensemble.py`): the data model (files and chunks with
embedding vectors), the nearest-neighbour retrieval query, context assembly,
the single-model and ensemble `ask` handlers, and the upload handler's
file-extension gate.  Remote services (embedding API, chat API, the SQL
engine's row source) are modelled as explicit function parameters; machine
floats are modelled as rationals.
-/

/-- Row of the `file_chunks` table: chunk id, owning file id, chunk text and
its embedding vector. -/
structure FileChunk where
  chunk_id : Nat
  file_id : Nat
  chunk_text : String
  embedding_vector : List ℚ
deriving DecidableEq, Repr

/-- Row of the `files` table. -/
structure DbFile where
  file_id : Nat
  file_name : String
  file_content : String
deriving DecidableEq, Repr

/-- Database state: the `files` and `file_chunks` tables. -/
structure Db where
  files : List DbFile
  chunks : List FileChunk
deriving DecidableEq, Repr

/-- Request body of the `/ask/` endpoint. -/
structure AskModel where
  document_id : Nat
  question : String
deriving DecidableEq, Repr

/-- FastAPI `HTTPException`, reduced to its status code and detail string. -/
structure HTTPException where
  status_code : Nat
  detail : String
deriving DecidableEq, Repr

/-- Python renders `str(HTTPException(c, d))` as `"c: d"`; the handlers'
blanket `except` clause re-wraps an inner `HTTPException` through this. -/
def httpExcStr (e : HTTPException) : String :=
  toString e.status_code ++ ": " ++ e.detail

/-- Role-tagged chat message. -/
structure Msg where
  role : String
  content : String
deriving DecidableEq, Repr

/-- Observable external effect of a request handler: an embeddings-API call,
a chunk query against the database, or a chat-completions call. -/
inductive Event where
  | embed (input : String)
  | dbQuery (file_id : Nat) (qvec : List ℚ) (lim : Nat)
  | chat (model : String) (messages : List Msg)
deriving DecidableEq, Repr

/-- The two remote Nebius gateways, as deterministic stubs: embedding
(text to vector) and chat completion (model and messages to text).  An
`Except.error` models the underlying client raising an exception. -/
structure Gateways where
  embed : String → Except String (List ℚ)
  chat : String → List Msg → Except String String

/-- Outcome of `db.scalars` on the chunk query, as a deterministic stub:
given the session state, the file id, the question vector and the `LIMIT`,
the rows returned (or a raised exception). -/
abbrev DbQuery := Db → Nat → List ℚ → Nat → Except String (List FileChunk)

/-- Squared Euclidean distance between two vectors (componentwise on the
common prefix).  Ordering by pgvector's `l2_distance` coincides with
ordering by its square, since the square root is monotone. -/
def dist2 (u v : List ℚ) : ℚ :=
  ((u.zip v).map (fun p => (p.1 - p.2) * (p.1 - p.2))).sum

/-- Distance of a chunk's stored vector to the query vector. -/
def chunkDist (qv : List ℚ) (c : FileChunk) : ℚ :=
  dist2 qv c.embedding_vector

/-- Relational semantics of
`SELECT * FROM file_chunks WHERE file_id = fid ORDER BY embedding_vector <-> qv LIMIT lim`:
the engine returns the first `lim` rows of SOME total ordering of the
matching rows that is consistent with the distance sort key.  `ORDER BY`
fixes nothing between equal-distance rows, so the result is a relation,
not a function, of the store. -/
def validQueryResult (chunks : List FileChunk) (fid : Nat) (qv : List ℚ)
    (lim : Nat) (r : List FileChunk) : Prop :=
  ∃ ordered : List FileChunk,
    ordered.Perm (chunks.filter (fun c => c.file_id == fid)) ∧
    ordered.Pairwise (fun a b => chunkDist qv a ≤ chunkDist qv b) ∧
    r = ordered.take lim

/-- Context assembly, `" ".join(chunk.chunk_text for chunk in chunks)`:
Lean's `String.intercalate` is exactly Python's `str.join`. -/
def assembleContext (chunks : List FileChunk) : String :=
  String.intercalate " " (chunks.map (fun c => c.chunk_text))

/-- Modelled from the spec: `assemble(fragments)` "concatenates fragment
texts in the given order, separated by a single space", the empty sequence
yielding the empty string.  Spelled by direct recursion on the sequence, to
be compared with `assembleContext` (the model of the source's `" ".join`). -/
def assembleSpecWords : List FileChunk → String
  | [] => ""
  | [c] => c.chunk_text
  | c :: c2 :: cs => c.chunk_text ++ " " ++ assembleSpecWords (c2 :: cs)

/-- Completion model used by `main.py` and as the primary ensemble model. -/
def single_model : String := "Qwen/Qwen2.5-Coder-32B-Instruct"

/-- Primary drafting model of the ensemble handler. -/
def primary_model : String := "Qwen/Qwen2.5-Coder-32B-Instruct"

/-- Secondary drafting model of the ensemble handler. -/
def secondary_model : String := "meta-llama/Meta-Llama-3.1-405B-Instruct"

/-- Fusion model of the ensemble handler. -/
def fusion_model : String := "nvidia/Llama-3.1-Nemotron-70B-Instruct-HF"

/-- System message of a drafting call, from `main.py` line 127 and
`main_ensemble.py` lines 136-141. -/
def single_system_message (context : String) : String :=
  "You are a helpful assistant. Here is the context to use to reply to the user question: "
    ++ context

/-- The two-element message list passed to every chat completion call. -/
def chat_messages (system user : String) : List Msg :=
  [⟨"system", system⟩, ⟨"user", user⟩]

/-- System message of the fusion call, from `main_ensemble.py` lines 160-165
(the four concatenated f-string pieces). -/
def fusion_system_message (context second_context answerA answerB : String) : String :=
  "You are a helpful assistant. Based on this first context: " ++ context
    ++ " and this second context: " ++ second_context
    ++ ", here is the first possible response: " ++ answerA
    ++ " and here is the second possible response: " ++ answerB
    ++ ". Based on that, craft a final response to the user question."

/-- Embedding of `get_similar_chunks(file_id, question, db, limit)`: embed the
question, then run the chunk query; any exception becomes
`HTTPException(500, str(e))`.  `main.py`'s variant is this function with
`lim = 10`; `main_ensemble.py`'s takes `limit` (default 5).  Returns the
result together with the list of external calls made. -/
def get_similar_chunks (gw : Gateways) (dbq : DbQuery) (db : Db)
    (file_id : Nat) (question : String) (lim : Nat) :
    Except HTTPException (List FileChunk) × List Event :=
  match gw.embed question with
  | .error e => (.error ⟨500, e⟩, [.embed question])
  | .ok question_embedding =>
    match dbq db file_id question_embedding lim with
    | .error e =>
        (.error ⟨500, e⟩, [.embed question, .dbQuery file_id question_embedding lim])
    | .ok similar_chunks =>
        (.ok similar_chunks, [.embed question, .dbQuery file_id question_embedding lim])

/-- Embedding of `main.py`'s `ask_question`: key check, one retrieval with
`LIMIT 10`, one completion call, the answer returned verbatim.  Returns the
result, the trace of external calls, and the (unchanged) database state. -/
def ask_question (gw : Gateways) (dbq : DbQuery) (db : Db)
    (nebius_api_key : Option String) (request : AskModel) :
    Except HTTPException String × List Event × Db :=
  match nebius_api_key with
  | none => (.error ⟨500, "NEBIUS API key not set"⟩, [], db)
  | some _ =>
    match get_similar_chunks gw dbq db request.document_id request.question 10 with
    | (.error e, tr) => (.error ⟨500, httpExcStr e⟩, tr, db)
    | (.ok similar_chunks, tr) =>
      let context := assembleContext similar_chunks
      let messages := chat_messages (single_system_message context) request.question
      match gw.chat single_model messages with
      | .error e => (.error ⟨500, e⟩, tr ++ [.chat single_model messages], db)
      | .ok content => (.ok content, tr ++ [.chat single_model messages], db)

/-- Embedding of `main_ensemble.py`'s `ask_question`: key check, two
retrievals (`LIMIT 5` then `LIMIT 10`), two drafting calls, one fusion call;
any exception aborts the whole request with `HTTPException(500, str(e))`. -/
def ask_question_ensemble (gw : Gateways) (dbq : DbQuery) (db : Db)
    (nebius_api_key : Option String) (request : AskModel) :
    Except HTTPException String × List Event × Db :=
  match nebius_api_key with
  | none => (.error ⟨500, "NEBIUS API key not set"⟩, [], db)
  | some _ =>
    match get_similar_chunks gw dbq db request.document_id request.question 5 with
    | (.error e, tr1) => (.error ⟨500, httpExcStr e⟩, tr1, db)
    | (.ok similar_chunks, tr1) =>
      match get_similar_chunks gw dbq db request.document_id request.question 10 with
      | (.error e, tr2) => (.error ⟨500, httpExcStr e⟩, tr1 ++ tr2, db)
      | (.ok second_similar_chunks, tr2) =>
        let context := assembleContext similar_chunks
        let second_context := assembleContext second_similar_chunks
        let messages1 := chat_messages (single_system_message context) request.question
        match gw.chat primary_model messages1 with
        | .error e =>
            (.error ⟨500, e⟩, tr1 ++ tr2 ++ [.chat primary_model messages1], db)
        | .ok answerA =>
          let messages2 :=
            chat_messages (single_system_message second_context) request.question
          match gw.chat secondary_model messages2 with
          | .error e =>
              (.error ⟨500, e⟩,
               tr1 ++ tr2 ++ [.chat primary_model messages1, .chat secondary_model messages2],
               db)
          | .ok answerB =>
            let messages3 :=
              chat_messages
                (fusion_system_message context second_context answerA answerB)
                request.question
            match gw.chat fusion_model messages3 with
            | .error e =>
                (.error ⟨500, e⟩,
                 tr1 ++ tr2 ++
                   [.chat primary_model messages1, .chat secondary_model messages2,
                    .chat fusion_model messages3],
                 db)
            | .ok content =>
                (.ok content,
                 tr1 ++ tr2 ++
                   [.chat primary_model messages1, .chat secondary_model messages2,
                    .chat fusion_model messages3],
                 db)

/-- Observable side effect of the upload handler: a filesystem write of the
cleaned bytes, or the scheduling of the background chunk-and-embed task. -/
inductive UpEvent where
  | fsWrite (path : String) (content : List Nat)
  | bgTask (file_id : Nat) (text : String)
deriving DecidableEq, Repr

/-- Response body of a successful upload. -/
structure UploadResp where
  info : String
  filename : String
deriving DecidableEq, Repr

/-- Python's `str.split('.')` on a list of characters: the (always nonempty)
list of maximal dot-free fields. -/
def pySplitDot : List Char → List (List Char)
  | [] => [[]]
  | c :: cs =>
    if c = '.' then [] :: pySplitDot cs
    else
      match pySplitDot cs with
      | [] => [[c]]
      | f :: rest => (c :: f) :: rest

/-- Embedding of `file.filename.split('.')[-1]`: the last field of the
dot-split of the filename. -/
def file_extension (filename : String) : String :=
  ⟨(pySplitDot filename.data).getLastD []⟩

/-- Allowed upload extensions, from `upload_file`. -/
def allowed_extensions : List String := ["txt", "pdf"]

/-- Fresh autoincrement id handed out by `db.refresh(new_file)`. -/
def nextFileId (db : Db) : Nat :=
  (db.files.map (fun f => f.file_id)).foldr max 0 + 1

/-- Embedding of `upload_file`: extension gate, then (inside the `try`) the
filesystem write of the null-stripped bytes, text extraction via the parser
(`parse` oracle), insertion of the `File` row, and scheduling of the
background chunk-and-embed task.  Returns the HTTP outcome, the side-effect
trace, and the resulting database state. -/
def upload_file (parse : Except String String) (fileBytes : List Nat)
    (db : Db) (filename : String) :
    Except HTTPException UploadResp × List UpEvent × Db :=
  if file_extension filename ∈ allowed_extensions then
    let file_location := "sources/" ++ filename
    let clean_file_content := fileBytes.filter (fun b => b ≠ 0)
    match parse with
    | .error _ =>
        (.error ⟨500, "Error saving file"⟩,
         [.fsWrite file_location clean_file_content], db)
    | .ok file_text_content =>
        let fid := nextFileId db
        (.ok ⟨"File saved", filename⟩,
         [.fsWrite file_location clean_file_content, .bgTask fid file_text_content],
         { db with files := db.files ++ [⟨fid, filename, file_text_content⟩] })
  else
    (.error ⟨400, "File type not allowed"⟩, [], db)

/-- Whether the needle matches at the very start of the haystack. -/
def leadMatch : List Char → List Char → Bool
  | [], _ => true
  | _ :: _, [] => false
  | a :: as, b :: bs => a == b && leadMatch as bs

/-- Whether the needle occurs contiguously anywhere in the haystack. -/
def occursIn (needle : List Char) : List Char → Bool
  | [] => needle.isEmpty
  | c :: cs => leadMatch needle (c :: cs) || occursIn needle cs

/-- Exact-substring test on strings. -/
def strOccursIn (needle hay : String) : Bool :=
  occursIn needle.data hay.data

/-- Predicate picking out the database chunk queries in a trace. -/
def isDbQueryEvent : Event → Bool
  | .dbQuery _ _ _ => true
  | _ => false

/-- Concrete gateway stub used in witnesses: constant embedding, answers
naming the model asked. -/
def gwFix : Gateways :=
  ⟨fun _ => .ok [0], fun model _ => .ok ("answer from " ++ model)⟩

/-- Gateway stub whose secondary drafting model fails. -/
def gwFailB : Gateways :=
  ⟨fun _ => .ok [0],
   fun model _ =>
     if model = secondary_model then .error "secondary down" else .ok "draft"⟩

/-- One stored chunk for document 1, used in witnesses. -/
def chunkFix : FileChunk := ⟨1, 1, "cats are mammals", [0]⟩

/-- Witness database: one chunk, no files. -/
def dbFix : Db := ⟨[], [chunkFix]⟩

/-- Witness store stub: matching rows in stored order, truncated to the limit. -/
def dbqFix : DbQuery :=
  fun db fid _ lim => .ok ((db.chunks.filter (fun c => c.file_id == fid)).take lim)

/-- Witness request. -/
def reqFix : AskModel := ⟨1, "what are cats?"⟩

theorem leadMatch_self_append (n t : List Char) : leadMatch n (n ++ t) = true := by
  induction n with
  | nil => rfl
  | cons a as ih => simp [leadMatch, ih]

theorem occursIn_nil_needle (h : List Char) : occursIn [] h = true := by
  induction h with
  | nil => rfl
  | cons c cs ih => simp [occursIn, leadMatch]

theorem occursIn_self_append (n t : List Char) : occursIn n (n ++ t) = true := by
  cases n with
  | nil => simpa using occursIn_nil_needle t
  | cons a as => simp [occursIn, leadMatch, leadMatch_self_append]

theorem occursIn_append_left (n h1 h2 : List Char) (hx : occursIn n h2 = true) :
    occursIn n (h1 ++ h2) = true := by
  induction h1 with
  | nil => simpa using hx
  | cons c cs ih => simp [occursIn, ih]

theorem intercalate_go_append (x : String) (s : String) (l : List String) :
    ∀ y : String, String.intercalate.go (x ++ y) s l = x ++ String.intercalate.go y s l := by
  induction l with
  | nil => intro y; rfl
  | cons a as ih =>
      intro y
      show String.intercalate.go ((x ++ y) ++ s ++ a) s as =
        x ++ String.intercalate.go ((y ++ s) ++ a) s as
      rw [String.append_assoc x y s, String.append_assoc x (y ++ s) a]
      exact ih ((y ++ s) ++ a)

theorem intercalate_cons_cons (s a b : String) (l : List String) :
    String.intercalate s (a :: b :: l) = a ++ s ++ String.intercalate s (b :: l) := by
  show String.intercalate.go ((a ++ s) ++ b) s l = (a ++ s) ++ String.intercalate.go b s l
  exact intercalate_go_append (a ++ s) s l b

theorem assembleContext_eq_spec :
    ∀ chunks : List FileChunk, assembleContext chunks = assembleSpecWords chunks
  | [] => rfl
  | [_] => rfl
  | c :: c2 :: cs => by
      have ih := assembleContext_eq_spec (c2 :: cs)
      show String.intercalate " "
          (c.chunk_text :: c2.chunk_text :: cs.map (fun x => x.chunk_text)) =
        c.chunk_text ++ " " ++ assembleSpecWords (c2 :: cs)
      rw [intercalate_cons_cons, ← ih]
      rfl

theorem getLastD_default_irrel {α : Type} (L : List α) (h : L ≠ []) (a b : α) :
    L.getLastD a = L.getLastD b := by
  cases L with
  | nil => exact absurd rfl h
  | cons y L => rw [List.getLastD_cons, List.getLastD_cons]

theorem pySplitDot_ne_nil (l : List Char) : pySplitDot l ≠ [] := by
  cases l with
  | nil => simp [pySplitDot]
  | cons c cs =>
      rw [pySplitDot]
      split
      · simp
      · split <;> simp

theorem pySplitDot_no_dot : ∀ t : List Char, '.' ∉ t → pySplitDot t = [t]
  | [], _ => rfl
  | c :: cs, h => by
      have hc : ¬ c = '.' := by
        intro hx
        exact h (by rw [hx]; exact List.mem_cons_self _ _)
      have hcs : '.' ∉ cs := fun hm => h (List.mem_cons_of_mem c hm)
      rw [pySplitDot, if_neg hc, pySplitDot_no_dot cs hcs]

theorem pySplitDot_dot_length :
    ∀ s t : List Char, 2 ≤ (pySplitDot (s ++ '.' :: t)).length
  | [], t => by
      rw [List.nil_append, pySplitDot, if_pos rfl]
      have h1 : 0 < (pySplitDot t).length :=
        List.length_pos.mpr (pySplitDot_ne_nil t)
      simp only [List.length_cons]
      omega
  | c :: s, t => by
      rw [List.cons_append, pySplitDot]
      have ih := pySplitDot_dot_length s t
      split
      · simp only [List.length_cons]
        omega
      · cases hp : pySplitDot (s ++ '.' :: t) with
        | nil => exact absurd hp (pySplitDot_ne_nil _)
        | cons f rest =>
            rw [hp] at ih
            simp only [List.length_cons] at ih ⊢
            omega

theorem pySplitDot_getLastD_append :
    ∀ s t : List Char,
      (pySplitDot (s ++ '.' :: t)).getLastD [] = (pySplitDot t).getLastD []
  | [], t => by
      rw [List.nil_append, pySplitDot, if_pos rfl, List.getLastD_cons]
  | c :: s, t => by
      rw [List.cons_append, pySplitDot]
      by_cases hc : c = '.'
      · rw [if_pos hc, List.getLastD_cons]
        exact pySplitDot_getLastD_append s t
      · rw [if_neg hc]
        cases hp : pySplitDot (s ++ '.' :: t) with
        | nil => exact absurd hp (pySplitDot_ne_nil _)
        | cons f rest =>
            have hlen : 2 ≤ (f :: rest).length := by
              have := pySplitDot_dot_length s t
              rwa [hp] at this
            have hrest : rest ≠ [] := by
              cases rest
              · simp at hlen
              · simp
            show ((c :: f) :: rest).getLastD [] = (pySplitDot t).getLastD []
            calc ((c :: f) :: rest).getLastD []
                = rest.getLastD (c :: f) := List.getLastD_cons _ _ _
              _ = rest.getLastD f := getLastD_default_irrel rest hrest _ _
              _ = (f :: rest).getLastD [] := (List.getLastD_cons _ _ _).symm
              _ = (pySplitDot (s ++ '.' :: t)).getLastD [] := by rw [hp]
              _ = (pySplitDot t).getLastD [] := pySplitDot_getLastD_append s t

theorem file_extension_append (stem ext : String) (h : '.' ∉ ext.data) :
    file_extension (stem ++ "." ++ ext) = ext := by
  have hdata : (stem ++ "." ++ ext).data = stem.data ++ '.' :: ext.data := by
    simp [String.data_append]
  rw [file_extension, hdata, pySplitDot_getLastD_append, pySplitDot_no_dot ext.data h]
  rfl

/-- C1 (amended): any result the ordered-and-limited chunk query can return
consists of min(k, m) fragments of the document, sorted by non-decreasing
L2 distance to the query vector, and every returned fragment is at least as
close as every fragment left out; the relative order of equal-distance
fragments is NOT fixed by the query (no tie-break — see the accompanying
counterexample). -/
theorem retrieval_topk_characterization
    (chunks : List FileChunk) (fid : Nat) (qv : List ℚ) (lim : Nat)
    (r : List FileChunk) (h : validQueryResult chunks fid qv lim r) :
    r.length = min lim (chunks.filter (fun c => c.file_id == fid)).length ∧
    r.Pairwise (fun a b => chunkDist qv a ≤ chunkDist qv b) ∧
    ∃ rest : List FileChunk,
      (r ++ rest).Perm (chunks.filter (fun c => c.file_id == fid)) ∧
      ∀ a ∈ r, ∀ b ∈ rest, chunkDist qv a ≤ chunkDist qv b := by
  obtain ⟨ordered, hperm, hsorted, hr⟩ := h
  subst hr
  refine ⟨?_, ?_, ordered.drop lim, ?_, ?_⟩
  · rw [List.length_take, hperm.length_eq]
  · exact hsorted.sublist (List.take_sublist _ _)
  · rw [List.take_append_drop]
    exact hperm
  · have hp : ((ordered.take lim) ++ (ordered.drop lim)).Pairwise
        (fun a b => chunkDist qv a ≤ chunkDist qv b) := by
      rw [List.take_append_drop]
      exact hsorted
    exact (List.pairwise_append.mp hp).2.2

/-- C1 counterexample: a store with two fragments at the same distance from
the query vector admits two distinct results of the very same query — the
`ORDER BY l2_distance` query has no secondary sort key, so no deterministic
tie-break exists and the result is not reproducible. -/
theorem retrieval_tiebreak_nondeterministic :
    validQueryResult [⟨1, 1, "a", [0]⟩, ⟨2, 1, "b", [0]⟩] 1 [0] 2
      [⟨1, 1, "a", [0]⟩, ⟨2, 1, "b", [0]⟩] ∧
    validQueryResult [⟨1, 1, "a", [0]⟩, ⟨2, 1, "b", [0]⟩] 1 [0] 2
      [⟨2, 1, "b", [0]⟩, ⟨1, 1, "a", [0]⟩] ∧
    ([⟨1, 1, "a", [0]⟩, ⟨2, 1, "b", [0]⟩] : List FileChunk) ≠
      [⟨2, 1, "b", [0]⟩, ⟨1, 1, "a", [0]⟩] := by
  refine ⟨⟨[⟨1, 1, "a", [0]⟩, ⟨2, 1, "b", [0]⟩], by decide,
      by norm_num [List.pairwise_cons, chunkDist, dist2], rfl⟩,
    ⟨[⟨2, 1, "b", [0]⟩, ⟨1, 1, "a", [0]⟩], by decide,
      by norm_num [List.pairwise_cons, chunkDist, dist2], rfl⟩, by decide⟩

/-- C1 witness: a concrete store with two fragments at distinct distances,
where the characterization pins down the unique result. -/
theorem retrieval_topk_characterization_witness :
    validQueryResult [⟨1, 1, "a", [0]⟩, ⟨2, 1, "b", [1]⟩] 1 [0] 2
      [⟨1, 1, "a", [0]⟩, ⟨2, 1, "b", [1]⟩] ∧
    (([⟨1, 1, "a", [0]⟩, ⟨2, 1, "b", [1]⟩] : List FileChunk).length =
        min 2 (([⟨1, 1, "a", [0]⟩, ⟨2, 1, "b", [1]⟩] :
          List FileChunk).filter (fun c => c.file_id == 1)).length ∧
      ([⟨1, 1, "a", [0]⟩, ⟨2, 1, "b", [1]⟩] : List FileChunk).Pairwise
        (fun a b => chunkDist [0] a ≤ chunkDist [0] b) ∧
      ∃ rest : List FileChunk,
        (([⟨1, 1, "a", [0]⟩, ⟨2, 1, "b", [1]⟩] : List FileChunk) ++ rest).Perm
          (([⟨1, 1, "a", [0]⟩, ⟨2, 1, "b", [1]⟩] :
            List FileChunk).filter (fun c => c.file_id == 1)) ∧
        ∀ a ∈ ([⟨1, 1, "a", [0]⟩, ⟨2, 1, "b", [1]⟩] : List FileChunk),
          ∀ b ∈ rest, chunkDist [0] a ≤ chunkDist [0] b) := by
  have hv : validQueryResult [⟨1, 1, "a", [0]⟩, ⟨2, 1, "b", [1]⟩] 1 [0] 2
      [⟨1, 1, "a", [0]⟩, ⟨2, 1, "b", [1]⟩] :=
    ⟨[⟨1, 1, "a", [0]⟩, ⟨2, 1, "b", [1]⟩], by decide,
      by norm_num [List.pairwise_cons, chunkDist, dist2], rfl⟩
  exact ⟨hv, retrieval_topk_characterization _ _ _ _ _ hv⟩

/-- C4: when the document has fewer matching fragments than the limit, a
successful retrieval returns exactly all of them (a permutation of the full
matching set — no padding) and no error; in particular a document with zero
fragments yields the empty result. -/
theorem retrieval_shortfall_returns_all
    (gw : Gateways) (dbq : DbQuery) (db : Db) (fid : Nat) (q : String)
    (lim : Nat) (qv : List ℚ) (r : List FileChunk)
    (hemb : gw.embed q = .ok qv)
    (hdb : dbq db fid qv lim = .ok r)
    (hvalid : validQueryResult db.chunks fid qv lim r)
    (hm : (db.chunks.filter (fun c => c.file_id == fid)).length < lim) :
    get_similar_chunks gw dbq db fid q lim =
      (.ok r, [.embed q, .dbQuery fid qv lim]) ∧
    r.Perm (db.chunks.filter (fun c => c.file_id == fid)) ∧
    (db.chunks.filter (fun c => c.file_id == fid) = [] → r = []) := by
  obtain ⟨ordered, hperm, hsorted, hr⟩ := hvalid
  have hlen : ordered.length ≤ lim := by
    rw [hperm.length_eq]
    omega
  have hall : r = ordered := by rw [hr, List.take_of_length_le hlen]
  refine ⟨by simp [get_similar_chunks, hemb, hdb], hall ▸ hperm, ?_⟩
  intro hfil
  have hnil : ordered.Perm [] := by rw [← hfil]; exact hperm
  rw [hall, hnil.eq_nil]

theorem fusion_contains_first_context (a b ra rb : String) :
    strOccursIn a (fusion_system_message a b ra rb) = true := by
  simp only [strOccursIn, fusion_system_message, String.data_append, List.append_assoc]
  exact occursIn_append_left _ _ _ (occursIn_self_append _ _)

theorem fusion_contains_second_context (a b ra rb : String) :
    strOccursIn b (fusion_system_message a b ra rb) = true := by
  simp only [strOccursIn, fusion_system_message, String.data_append, List.append_assoc]
  exact occursIn_append_left _ _ _ (occursIn_append_left _ _ _
    (occursIn_append_left _ _ _ (occursIn_self_append _ _)))

theorem fusion_contains_first_answer (a b ra rb : String) :
    strOccursIn ra (fusion_system_message a b ra rb) = true := by
  simp only [strOccursIn, fusion_system_message, String.data_append, List.append_assoc]
  exact occursIn_append_left _ _ _ (occursIn_append_left _ _ _
    (occursIn_append_left _ _ _ (occursIn_append_left _ _ _
      (occursIn_append_left _ _ _ (occursIn_self_append _ _)))))

theorem fusion_contains_second_answer (a b ra rb : String) :
    strOccursIn rb (fusion_system_message a b ra rb) = true := by
  simp only [strOccursIn, fusion_system_message, String.data_append, List.append_assoc]
  exact occursIn_append_left _ _ _ (occursIn_append_left _ _ _
    (occursIn_append_left _ _ _ (occursIn_append_left _ _ _
      (occursIn_append_left _ _ _ (occursIn_append_left _ _ _
        (occursIn_append_left _ _ _ (occursIn_self_append _ _)))))))

theorem get_similar_chunks_ok {gw : Gateways} {dbq : DbQuery} {db : Db}
    {fid : Nat} {q : String} {lim : Nat} {qv : List ℚ} {r : List FileChunk}
    (hemb : gw.embed q = .ok qv) (hdb : dbq db fid qv lim = .ok r) :
    get_similar_chunks gw dbq db fid q lim =
      (.ok r, [.embed q, .dbQuery fid qv lim]) := by
  simp [get_similar_chunks, hemb, hdb]

theorem ask_question_run {gw : Gateways} {dbq : DbQuery} {db : Db}
    (k : String) {req : AskModel} {qv : List ℚ} {chunks : List FileChunk} {out : String}
    (hemb : gw.embed req.question = .ok qv)
    (hdb : dbq db req.document_id qv 10 = .ok chunks)
    (hchat : gw.chat single_model
      (chat_messages (single_system_message (assembleContext chunks))
        req.question) = .ok out) :
    ask_question gw dbq db (some k) req =
      (.ok out,
       [.embed req.question, .dbQuery req.document_id qv 10,
        .chat single_model
          (chat_messages (single_system_message (assembleContext chunks))
            req.question)],
       db) := by
  simp [ask_question, get_similar_chunks_ok hemb hdb, hchat]

theorem ask_question_ensemble_run {gw : Gateways} {dbq : DbQuery} {db : Db}
    (k : String) {req : AskModel} {qv : List ℚ} {l1 l2 : List FileChunk}
    {aA aB aF : String}
    (hemb : gw.embed req.question = .ok qv)
    (hdb1 : dbq db req.document_id qv 5 = .ok l1)
    (hdb2 : dbq db req.document_id qv 10 = .ok l2)
    (hA : gw.chat primary_model
      (chat_messages (single_system_message (assembleContext l1))
        req.question) = .ok aA)
    (hB : gw.chat secondary_model
      (chat_messages (single_system_message (assembleContext l2))
        req.question) = .ok aB)
    (hF : gw.chat fusion_model
      (chat_messages
        (fusion_system_message (assembleContext l1) (assembleContext l2) aA aB)
        req.question) = .ok aF) :
    ask_question_ensemble gw dbq db (some k) req =
      (.ok aF,
       [.embed req.question, .dbQuery req.document_id qv 5,
        .embed req.question, .dbQuery req.document_id qv 10,
        .chat primary_model
          (chat_messages (single_system_message (assembleContext l1)) req.question),
        .chat secondary_model
          (chat_messages (single_system_message (assembleContext l2)) req.question),
        .chat fusion_model
          (chat_messages
            (fusion_system_message (assembleContext l1) (assembleContext l2) aA aB)
            req.question)],
       db) := by
  simp [ask_question_ensemble, get_similar_chunks_ok hemb hdb1,
    get_similar_chunks_ok hemb hdb2, hA, hB, hF]

theorem ask_question_ensemble_secondary_error {gw : Gateways} {dbq : DbQuery}
    {db : Db} (k : String) {req : AskModel} {qv : List ℚ} {l1 l2 : List FileChunk}
    {aA err : String}
    (hemb : gw.embed req.question = .ok qv)
    (hdb1 : dbq db req.document_id qv 5 = .ok l1)
    (hdb2 : dbq db req.document_id qv 10 = .ok l2)
    (hA : gw.chat primary_model
      (chat_messages (single_system_message (assembleContext l1))
        req.question) = .ok aA)
    (hB : gw.chat secondary_model
      (chat_messages (single_system_message (assembleContext l2))
        req.question) = .error err) :
    ask_question_ensemble gw dbq db (some k) req =
      (.error ⟨500, err⟩,
       [.embed req.question, .dbQuery req.document_id qv 5,
        .embed req.question, .dbQuery req.document_id qv 10,
        .chat primary_model
          (chat_messages (single_system_message (assembleContext l1)) req.question),
        .chat secondary_model
          (chat_messages (single_system_message (assembleContext l2)) req.question)],
       db) := by
  simp [ask_question_ensemble, get_similar_chunks_ok hemb hdb1,
    get_similar_chunks_ok hemb hdb2, hA, hB]

/-- C6: on a successful single-model run, exactly one completion call is made,
with exactly two messages — the system message is the fixed assistant prefix
followed by the assembled context, the user message is the raw question —
and the generated text is returned verbatim. -/
theorem single_synthesis_call_shape
    (gw : Gateways) (dbq : DbQuery) (db : Db) (k : String) (req : AskModel)
    (qv : List ℚ) (chunks : List FileChunk) (out : String)
    (hemb : gw.embed req.question = .ok qv)
    (hdb : dbq db req.document_id qv 10 = .ok chunks)
    (hchat : gw.chat single_model
      (chat_messages (single_system_message (assembleContext chunks))
        req.question) = .ok out) :
    ask_question gw dbq db (some k) req =
      (.ok out,
       [.embed req.question, .dbQuery req.document_id qv 10,
        .chat single_model
          [⟨"system",
            "You are a helpful assistant. Here is the context to use to reply to the user question: "
              ++ assembleContext chunks⟩,
           ⟨"user", req.question⟩]],
       db) :=
  ask_question_run k hemb hdb hchat

/-- C5: context assembly agrees with the spec's space-separated concatenation
on every fragment sequence, returns the empty string on the empty sequence,
and single-model synthesis with an empty retrieval result still issues its
one completion call and returns the generated answer. -/
theorem context_assembly_pure :
    (∀ chunks : List FileChunk, assembleContext chunks = assembleSpecWords chunks) ∧
    assembleContext [] = "" ∧
    (∀ (gw : Gateways) (dbq : DbQuery) (db : Db) (k : String) (req : AskModel)
        (qv : List ℚ) (out : String),
      gw.embed req.question = .ok qv →
      dbq db req.document_id qv 10 = .ok [] →
      gw.chat single_model
        (chat_messages (single_system_message "") req.question) = .ok out →
      ask_question gw dbq db (some k) req =
        (.ok out,
         [.embed req.question, .dbQuery req.document_id qv 10,
          .chat single_model
            (chat_messages (single_system_message "") req.question)],
         db)) := by
  refine ⟨assembleContext_eq_spec, rfl, ?_⟩
  intro gw dbq db k req qv out hemb hdb hchat
  exact ask_question_run k hemb hdb hchat

/-- C2: in ensemble mode, when the secondary drafting call fails, the whole
request fails with the 500-wrapped error, the fusion model is never invoked
(no chat event for it in the trace), and no answer is returned. -/
theorem ensemble_secondary_failure_aborts
    (gw : Gateways) (dbq : DbQuery) (db : Db) (k : String) (req : AskModel)
    (qv : List ℚ) (l1 l2 : List FileChunk) (aA err : String)
    (hemb : gw.embed req.question = .ok qv)
    (hdb1 : dbq db req.document_id qv 5 = .ok l1)
    (hdb2 : dbq db req.document_id qv 10 = .ok l2)
    (hA : gw.chat primary_model
      (chat_messages (single_system_message (assembleContext l1))
        req.question) = .ok aA)
    (hB : gw.chat secondary_model
      (chat_messages (single_system_message (assembleContext l2))
        req.question) = .error err) :
    (ask_question_ensemble gw dbq db (some k) req).1 = .error ⟨500, err⟩ ∧
    (∀ msgs : List Msg,
      Event.chat fusion_model msgs ∉ (ask_question_ensemble gw dbq db (some k) req).2.1) ∧
    (∀ ans : String, (ask_question_ensemble gw dbq db (some k) req).1 ≠ .ok ans) := by
  have h := ask_question_ensemble_secondary_error k hemb hdb1 hdb2 hA hB
  rw [h]
  refine ⟨rfl, ?_, ?_⟩
  · intro msgs
    simp [fusion_model, primary_model, secondary_model]
  · intro ans
    simp

/-- C3: in ensemble mode the fusion call's system message is the fusion
prompt, which contains both assembled contexts and both candidate answers as
exact substrings, and the fusion call's user message is the original
question; the fusion call appears in the trace whatever its outcome. -/
theorem fusion_prompt_contains_all
    (gw : Gateways) (dbq : DbQuery) (db : Db) (k : String) (req : AskModel)
    (qv : List ℚ) (l1 l2 : List FileChunk) (aA aB : String)
    (hemb : gw.embed req.question = .ok qv)
    (hdb1 : dbq db req.document_id qv 5 = .ok l1)
    (hdb2 : dbq db req.document_id qv 10 = .ok l2)
    (hA : gw.chat primary_model
      (chat_messages (single_system_message (assembleContext l1))
        req.question) = .ok aA)
    (hB : gw.chat secondary_model
      (chat_messages (single_system_message (assembleContext l2))
        req.question) = .ok aB) :
    (∃ res : Except HTTPException String,
      ask_question_ensemble gw dbq db (some k) req =
        (res,
         [.embed req.question, .dbQuery req.document_id qv 5,
          .embed req.question, .dbQuery req.document_id qv 10,
          .chat primary_model
            (chat_messages (single_system_message (assembleContext l1)) req.question),
          .chat secondary_model
            (chat_messages (single_system_message (assembleContext l2)) req.question),
          .chat fusion_model
            [⟨"system",
              fusion_system_message (assembleContext l1) (assembleContext l2) aA aB⟩,
             ⟨"user", req.question⟩]],
         db)) ∧
    strOccursIn (assembleContext l1)
      (fusion_system_message (assembleContext l1) (assembleContext l2) aA aB) = true ∧
    strOccursIn (assembleContext l2)
      (fusion_system_message (assembleContext l1) (assembleContext l2) aA aB) = true ∧
    strOccursIn aA
      (fusion_system_message (assembleContext l1) (assembleContext l2) aA aB) = true ∧
    strOccursIn aB
      (fusion_system_message (assembleContext l1) (assembleContext l2) aA aB) = true := by
  refine ⟨?_, fusion_contains_first_context _ _ _ _,
    fusion_contains_second_context _ _ _ _,
    fusion_contains_first_answer _ _ _ _,
    fusion_contains_second_answer _ _ _ _⟩
  cases hF : gw.chat fusion_model
      (chat_messages
        (fusion_system_message (assembleContext l1) (assembleContext l2) aA aB)
        req.question) with
  | error e =>
      refine ⟨.error ⟨500, e⟩, ?_⟩
      simp only [ask_question_ensemble, get_similar_chunks_ok hemb hdb1,
        get_similar_chunks_ok hemb hdb2, hA, hB, hF]
      simp [chat_messages]
  | ok c =>
      refine ⟨.ok c, ?_⟩
      have h := ask_question_ensemble_run k hemb hdb1 hdb2 hA hB hF
      rw [h]
      simp [chat_messages]

/-- C7: with the embedding and both store queries succeeding, the ensemble
handler issues exactly the two chunk queries, limits 5 then 10, against the
same document and question vector — whatever the completion calls do — and
the single-model handler issues exactly the one query with limit 10. -/
theorem retrieval_pass_counts
    (gw : Gateways) (dbq : DbQuery) (db : Db) (k : String) (req : AskModel)
    (qv : List ℚ) (l1 l2 : List FileChunk)
    (hemb : gw.embed req.question = .ok qv)
    (hdb1 : dbq db req.document_id qv 5 = .ok l1)
    (hdb2 : dbq db req.document_id qv 10 = .ok l2) :
    ((ask_question_ensemble gw dbq db (some k) req).2.1.filter isDbQueryEvent =
      [.dbQuery req.document_id qv 5, .dbQuery req.document_id qv 10]) ∧
    ((ask_question gw dbq db (some k) req).2.1.filter isDbQueryEvent =
      [.dbQuery req.document_id qv 10]) := by
  constructor
  · cases hA : gw.chat primary_model
        (chat_messages (single_system_message (assembleContext l1)) req.question) with
    | error e =>
        simp only [ask_question_ensemble, get_similar_chunks_ok hemb hdb1,
          get_similar_chunks_ok hemb hdb2, hA]
        simp [List.filter, isDbQueryEvent]
    | ok aA =>
        cases hB : gw.chat secondary_model
            (chat_messages (single_system_message (assembleContext l2)) req.question) with
        | error e =>
            simp only [ask_question_ensemble, get_similar_chunks_ok hemb hdb1,
              get_similar_chunks_ok hemb hdb2, hA, hB]
            simp [List.filter, isDbQueryEvent]
        | ok aB =>
            cases hF : gw.chat fusion_model
                (chat_messages (fusion_system_message (assembleContext l1)
                  (assembleContext l2) aA aB) req.question) with
            | error e =>
                simp only [ask_question_ensemble, get_similar_chunks_ok hemb hdb1,
                  get_similar_chunks_ok hemb hdb2, hA, hB, hF]
                simp [List.filter, isDbQueryEvent]
            | ok aF =>
                simp only [ask_question_ensemble, get_similar_chunks_ok hemb hdb1,
                  get_similar_chunks_ok hemb hdb2, hA, hB, hF]
                simp [List.filter, isDbQueryEvent]
  · cases hc : gw.chat single_model
        (chat_messages (single_system_message (assembleContext l2)) req.question) with
    | error e =>
        simp only [ask_question, get_similar_chunks_ok hemb hdb2, hc]
        simp [List.filter, isDbQueryEvent]
    | ok out =>
        simp only [ask_question, get_similar_chunks_ok hemb hdb2, hc]
        simp [List.filter, isDbQueryEvent]

theorem ask_question_db_invariant (gw : Gateways) (dbq : DbQuery) (db : Db)
    (key : Option String) (req : AskModel) :
    (ask_question gw dbq db key req).2.2 = db := by
  unfold ask_question
  repeat' first | split | (dsimp only)

theorem ask_question_ensemble_db_invariant (gw : Gateways) (dbq : DbQuery)
    (db : Db) (key : Option String) (req : AskModel) :
    (ask_question_ensemble gw dbq db key req).2.2 = db := by
  unfold ask_question_ensemble
  repeat' first | split | (dsimp only)

/-- C9: the ask handlers read but never write the database — the final state
equals the initial state — so a second call with identical inputs against
the state left by the first returns the identical result (the gateway and
store stubs are functions, hence deterministic). -/
theorem ask_idempotent (gw : Gateways) (dbq : DbQuery) (db : Db)
    (key : Option String) (req : AskModel) :
    (ask_question gw dbq db key req).2.2 = db ∧
    (ask_question_ensemble gw dbq db key req).2.2 = db ∧
    (ask_question gw dbq ((ask_question gw dbq db key req).2.2) key req).1 =
      (ask_question gw dbq db key req).1 ∧
    (ask_question_ensemble gw dbq
        ((ask_question_ensemble gw dbq db key req).2.2) key req).1 =
      (ask_question_ensemble gw dbq db key req).1 := by
  refine ⟨ask_question_db_invariant gw dbq db key req,
    ask_question_ensemble_db_invariant gw dbq db key req, ?_, ?_⟩
  · rw [ask_question_db_invariant gw dbq db key req]
  · rw [ask_question_ensemble_db_invariant gw dbq db key req]

/-- C8 (amended): a missing NEBIUS_API_KEY is detected inside each ask
request: whenever the key is absent the handler (single or ensemble) fails
with HTTP 500 "NEBIUS API key not set" before making any gateway or store
call, leaving the state unchanged — there is no startup-time check and the
operation is still entered on every call. -/
theorem api_key_check_per_call (gw : Gateways) (dbq : DbQuery) (db : Db)
    (req : AskModel) :
    ask_question gw dbq db none req =
      (.error ⟨500, "NEBIUS API key not set"⟩, [], db) ∧
    ask_question_ensemble gw dbq db none req =
      (.error ⟨500, "NEBIUS API key not set"⟩, [], db) :=
  ⟨rfl, rfl⟩

/-- C8 counterexample: with the key absent, the ask operation is invoked and
fails afresh on every call — here two successive identical calls each run
and each produce the per-request 500 failure — so the fault is not detected
once at startup and does not prevent the operation from being invoked. -/
theorem api_key_checked_per_request :
    ask_question gwFix dbqFix dbFix none reqFix =
      (.error ⟨500, "NEBIUS API key not set"⟩, [], dbFix) ∧
    ask_question gwFix dbqFix
        (ask_question gwFix dbqFix dbFix none reqFix).2.2 none reqFix =
      (.error ⟨500, "NEBIUS API key not set"⟩, [], dbFix) ∧
    ask_question_ensemble gwFix dbqFix dbFix none reqFix =
      (.error ⟨500, "NEBIUS API key not set"⟩, [], dbFix) :=
  ⟨rfl, rfl, rfl⟩

/-- C10: an upload whose filename extension (the substring after the last
dot) is neither "txt" nor "pdf" is rejected with HTTP 400 "File type not
allowed" before any filesystem write, any file row insertion, or any
background-task scheduling: the effect trace is empty and the database is
returned unchanged, for every parser outcome and file content. -/
theorem upload_rejects_bad_extension
    (parse : Except String String) (fileBytes : List Nat) (db : Db)
    (stem ext : String)
    (hdot : '.' ∉ ext.data)
    (hext : ext ∉ allowed_extensions) :
    upload_file parse fileBytes db (stem ++ "." ++ ext) =
      (.error ⟨400, "File type not allowed"⟩, [], db) := by
  rw [upload_file, file_extension_append stem ext hdot, if_neg hext]

/-- C6 witness: a concrete single-model run over the one-chunk store. -/
theorem single_synthesis_call_shape_witness :
    ask_question gwFix dbqFix dbFix (some "key") reqFix =
      (.ok ("answer from " ++ single_model),
       [.embed reqFix.question, .dbQuery reqFix.document_id [0] 10,
        .chat single_model
          [⟨"system",
            "You are a helpful assistant. Here is the context to use to reply to the user question: "
              ++ assembleContext [chunkFix]⟩,
           ⟨"user", reqFix.question⟩]],
       dbFix) :=
  single_synthesis_call_shape gwFix dbqFix dbFix "key" reqFix [0] [chunkFix]
    ("answer from " ++ single_model) rfl rfl rfl

/-- C5 witness: a document with no stored fragments still gets its one
completion call, on the empty context, and the answer is returned. -/
theorem context_assembly_pure_witness :
    ask_question gwFix dbqFix dbFix (some "key") ⟨2, "anything"⟩ =
      (.ok ("answer from " ++ single_model),
       [.embed "anything", .dbQuery 2 [0] 10,
        .chat single_model (chat_messages (single_system_message "") "anything")],
       dbFix) :=
  context_assembly_pure.2.2 gwFix dbqFix dbFix "key" ⟨2, "anything"⟩ [0]
    ("answer from " ++ single_model) rfl rfl rfl

/-- C2 witness: a concrete run whose secondary drafting call fails. -/
theorem ensemble_secondary_failure_aborts_witness :
    (ask_question_ensemble gwFailB dbqFix dbFix (some "key") reqFix).1 =
      .error ⟨500, "secondary down"⟩ ∧
    (∀ msgs : List Msg,
      Event.chat fusion_model msgs ∉
        (ask_question_ensemble gwFailB dbqFix dbFix (some "key") reqFix).2.1) ∧
    (∀ ans : String,
      (ask_question_ensemble gwFailB dbqFix dbFix (some "key") reqFix).1 ≠ .ok ans) :=
  ensemble_secondary_failure_aborts gwFailB dbqFix dbFix "key" reqFix [0]
    [chunkFix] [chunkFix] "draft" "secondary down" rfl rfl rfl rfl rfl

/-- C3 witness: a concrete successful ensemble run; the fusion prompt holds
both contexts and both candidate answers. -/
theorem fusion_prompt_contains_all_witness :
    (∃ res : Except HTTPException String,
      ask_question_ensemble gwFix dbqFix dbFix (some "key") reqFix =
        (res,
         [.embed reqFix.question, .dbQuery reqFix.document_id [0] 5,
          .embed reqFix.question, .dbQuery reqFix.document_id [0] 10,
          .chat primary_model
            (chat_messages (single_system_message (assembleContext [chunkFix]))
              reqFix.question),
          .chat secondary_model
            (chat_messages (single_system_message (assembleContext [chunkFix]))
              reqFix.question),
          .chat fusion_model
            [⟨"system",
              fusion_system_message (assembleContext [chunkFix])
                (assembleContext [chunkFix])
                ("answer from " ++ primary_model) ("answer from " ++ secondary_model)⟩,
             ⟨"user", reqFix.question⟩]],
         dbFix)) ∧
    strOccursIn (assembleContext [chunkFix])
      (fusion_system_message (assembleContext [chunkFix]) (assembleContext [chunkFix])
        ("answer from " ++ primary_model) ("answer from " ++ secondary_model)) = true ∧
    strOccursIn (assembleContext [chunkFix])
      (fusion_system_message (assembleContext [chunkFix]) (assembleContext [chunkFix])
        ("answer from " ++ primary_model) ("answer from " ++ secondary_model)) = true ∧
    strOccursIn ("answer from " ++ primary_model)
      (fusion_system_message (assembleContext [chunkFix]) (assembleContext [chunkFix])
        ("answer from " ++ primary_model) ("answer from " ++ secondary_model)) = true ∧
    strOccursIn ("answer from " ++ secondary_model)
      (fusion_system_message (assembleContext [chunkFix]) (assembleContext [chunkFix])
        ("answer from " ++ primary_model) ("answer from " ++ secondary_model)) = true :=
  fusion_prompt_contains_all gwFix dbqFix dbFix "key" reqFix [0]
    [chunkFix] [chunkFix] ("answer from " ++ primary_model)
    ("answer from " ++ secondary_model) rfl rfl rfl rfl rfl

/-- C7 witness: a concrete run showing the 5-then-10 ensemble query pair and
the single limit-10 query. -/
theorem retrieval_pass_counts_witness :
    ((ask_question_ensemble gwFix dbqFix dbFix (some "key") reqFix).2.1.filter
        isDbQueryEvent =
      [.dbQuery reqFix.document_id [0] 5, .dbQuery reqFix.document_id [0] 10]) ∧
    ((ask_question gwFix dbqFix dbFix (some "key") reqFix).2.1.filter
        isDbQueryEvent =
      [.dbQuery reqFix.document_id [0] 10]) :=
  retrieval_pass_counts gwFix dbqFix dbFix "key" reqFix [0] [chunkFix] [chunkFix]
    rfl rfl rfl

/-- C4 witness: one stored fragment, limit 5 — retrieval returns exactly the
one fragment with no error. -/
theorem retrieval_shortfall_returns_all_witness :
    get_similar_chunks gwFix dbqFix dbFix 1 "q" 5 =
      (.ok [chunkFix], [.embed "q", .dbQuery 1 [0] 5]) ∧
    List.Perm [chunkFix] (dbFix.chunks.filter (fun c => c.file_id == 1)) ∧
    (dbFix.chunks.filter (fun c => c.file_id == 1) = [] →
      [chunkFix] = ([] : List FileChunk)) := by
  have hv : validQueryResult dbFix.chunks 1 [0] 5 [chunkFix] :=
    ⟨[chunkFix], by decide, by simp, rfl⟩
  exact retrieval_shortfall_returns_all gwFix dbqFix dbFix 1 "q" 5 [0] [chunkFix]
    rfl rfl hv (by decide)

/-- C10 witness: a ".exe" upload is rejected with 400 and no side effects. -/
theorem upload_rejects_bad_extension_witness :
    upload_file (.ok "text") [1, 0, 2] dbFix ("doc" ++ "." ++ "exe") =
      (.error ⟨400, "File type not allowed"⟩, [], dbFix) :=
  upload_rejects_bad_extension (.ok "text") [1, 0, 2] dbFix "doc" "exe"
    (by decide) (by decide)
